import Mathlib

/-!
Verification development for the autosync webhook relay.

The Python sources are shallowly embedded: Python `str` values are modelled
as `List Char` (one entry per code point), dictionaries carrying structured
configuration are modelled as structures, and network calls are abstracted
as explicit oracle arguments so that the pure decision logic of each
function (matching, precedence, partial-failure aggregation) is preserved
verbatim.
-/

/-- Python strings are modelled as lists of characters. -/
abbrev Str := List Char

/-- Conversion from Lean string literals to the `Str` model. -/
def str (s : String) : Str := s.data

/-- Python substring test `needle in hay` for strings. -/
def strContains (hay needle : Str) : Bool :=
  needle.isPrefixOf hay ||
    match hay with
    | [] => false
    | _ :: t => strContains t needle

/-- Python `hay.replace(pat, rep, 1)`: replace the first occurrence of
`pat` in `hay` by `rep` (with `pat = ""` this inserts `rep` in front,
exactly as in Python). -/
def pyReplaceFirst : Str → Str → Str → Str
  | hay, pat, rep =>
    if pat.isPrefixOf hay then rep ++ hay.drop pat.length
    else
      match hay with
      | [] => []
      | c :: t => c :: pyReplaceFirst t pat rep

theorem pyReplaceFirst_of_isPrefixOf (hay pat rep : Str)
    (h : pat.isPrefixOf hay = true) :
    pyReplaceFirst hay pat rep = rep ++ hay.drop pat.length := by
  rw [pyReplaceFirst.eq_def]
  simp [h]

/-- `models.PathRewrite`: an ordered pair of a from-prefix and a to-prefix. -/
structure PathRewrite where
  from_path : Str
  to_path : Str
deriving DecidableEq, Repr

/-- A rule fires on `path` when both prefixes are non-empty (Python
truthiness of the strings) and the from-prefix is a literal prefix of the
path.  This is the loop guard of `utils.rewrite_path`. -/
def ruleMatches (path : Str) (r : PathRewrite) : Bool :=
  !r.from_path.isEmpty && !r.to_path.isEmpty && r.from_path.isPrefixOf path

/-- `utils.rewrite_path`: scan the rules in list order and apply
`path.replace(from_path, to_path, 1)` for the first rule whose guard holds;
with no rules, or no rule matching, the path passes through unchanged. -/
def rewrite_path (path : Str) (rules : List PathRewrite) : Str :=
  match rules with
  | [] => path
  | r :: rest =>
    if ruleMatches path r then pyReplaceFirst path r.from_path r.to_path
    else rewrite_path path rest

theorem isPrefixOf_length_le (xs ys : Str) (h : xs.isPrefixOf ys = true) :
    xs.length ≤ ys.length := by
  induction xs generalizing ys with
  | nil => simp
  | cons a as ih =>
    cases ys with
    | nil => simp [List.isPrefixOf] at h
    | cons b bs =>
      simp only [List.isPrefixOf, Bool.and_eq_true] at h
      have := ih bs h.2
      simpa using Nat.succ_le_succ this

/-- If `xs` is a (boolean) prefix of `ys ++ zs` then either `xs` is a
prefix of `ys` or `ys` is a prefix of `xs`. -/
theorem isPrefixOf_append_cases (xs ys zs : Str)
    (h : xs.isPrefixOf (ys ++ zs) = true) :
    xs.isPrefixOf ys = true ∨ ys.isPrefixOf xs = true := by
  induction xs generalizing ys with
  | nil => left; simp [List.isPrefixOf]
  | cons a as ih =>
    cases ys with
    | nil => right; simp [List.isPrefixOf]
    | cons b bs =>
      simp only [List.cons_append, List.isPrefixOf, Bool.and_eq_true] at h ⊢
      rcases ih bs h.2 with h2 | h2
      · left; exact ⟨h.1, h2⟩
      · right; exact ⟨by simpa [BEq.comm] using h.1, h2⟩

/-- Characterization of `rewrite_path`: it returns the path rewritten by the
first rule (in list order) whose guard holds, and the unchanged path when no
rule's guard holds. -/
theorem rewrite_path_characterization (path : Str) (rules : List PathRewrite) :
    rewrite_path path rules =
      match rules.find? (ruleMatches path) with
      | none => path
      | some r => r.to_path ++ path.drop r.from_path.length := by
  induction rules with
  | nil => simp [rewrite_path]
  | cons r rest ih =>
    by_cases h : ruleMatches path r = true
    · have hpre : r.from_path.isPrefixOf path = true := by
        simp only [ruleMatches, Bool.and_eq_true] at h
        exact h.2
      simp [rewrite_path, h, List.find?_cons_of_pos _ h,
        pyReplaceFirst_of_isPrefixOf _ _ _ hpre]
    · have h' : ruleMatches path r = false := by
        simpa using h
      simp [rewrite_path, h', List.find?_cons_of_neg, ih]

/-- Numeric value of a decimal digit string (the model of Python
`float(s)` restricted to digit strings). -/
def digitsToNat (s : Str) : ℕ :=
  s.foldl (fun acc c => 10 * acc + (c.toNat - 48)) 0

/-- Python `s.isdigit()` for ASCII inputs: non-empty and all digits. -/
def isDigits (s : Str) : Bool :=
  !s.isEmpty && s.all Char.isDigit

/-- Value of a string matching the regex group `\d+(\.\d+)?` of
`utils.parse_time_string`, as an exact rational (`none` when the string
does not match the group). -/
def matchNumber (s : Str) : Option ℚ :=
  match s.splitOn '.' with
  | [ip] => if isDigits ip then some (digitsToNat ip) else none
  | [ip, fp] =>
    if isDigits ip && isDigits fp then
      some ((digitsToNat ip : ℚ) + (digitsToNat fp : ℚ) / 10 ^ fp.length)
    else none
  | _ => none

/-- `utils.parse_time_string`: empty strings and unparsable strings map to
0; a bare digit string is seconds; otherwise the anchored regex
`(\d+(\.\d+)?)(ms|s|m)` applies with `ms` meaning milliseconds, `s`
seconds and `m` minutes.  The regex alternation is modelled by testing the
suffixes in the order `ms`, `s`, `m`; this is equivalent because the
numeric group cannot contain letters.  Python float arithmetic is modelled
by exact rationals. -/
def parse_time_string (s : Str) : ℚ :=
  if s.isEmpty then 0
  else if isDigits s then digitsToNat s
  else if (str "ms").isSuffixOf s then
    match matchNumber (s.take (s.length - 2)) with
    | some v => v / 1000
    | none => 0
  else if (str "s").isSuffixOf s then
    match matchNumber (s.take (s.length - 1)) with
    | some v => v
    | none => 0
  else if (str "m").isSuffixOf s then
    match matchNumber (s.take (s.length - 1)) with
    | some v => v * 60
    | none => 0
  else 0

/-- The root of a POSIX path as computed by `pathlib`: exactly two leading
slashes are kept verbatim, any other number collapses to one. -/
def pathRootOf (p : Str) : Str :=
  if p.take 2 == str "//" && !(p.take 3 == str "///") then str "//"
  else if p.take 1 == str "/" then str "/"
  else []

/-- The components of a POSIX path as kept by `pathlib`: empty components
(consecutive or trailing slashes) and `.` components are dropped. -/
def pathComponentsOf (p : Str) : List Str :=
  (p.splitOn '/').filter (fun c => !c.isEmpty && !(c == str "."))

/-- Model of `pathlib.Path(p).as_posix()` for POSIX path strings. -/
def asPosix (p : Str) : Str :=
  let res := pathRootOf p ++ List.intercalate (str "/") (pathComponentsOf p)
  if res.isEmpty then str "." else res

/-- Model of `str(pathlib.Path(p).parent)` for POSIX path strings. -/
def posixParent (p : Str) : Str :=
  let root := pathRootOf p
  let cs := (pathComponentsOf p).dropLast
  if cs.isEmpty then (if root.isEmpty then str "." else root)
  else root ++ List.intercalate (str "/") cs

/-- One Plex library section as returned by `GET /library/sections`:
its key, declared kind (`movie` or `show`), title and backing root
locations, in declared order. -/
structure PlexSection where
  key : Str
  sectionType : Str
  title : Str
  locations : List Str
deriving DecidableEq, Repr

/-- First pass of `MediaServerScanner._scan_plex`: collect, in declared
section order, every (section, location) pair whose section kind matches
the requested library type (`Movies` matches `movie`, `Series` matches
`show`). -/
def plexMatchingSections (sections : List PlexSection) (library_type : Str) :
    List (PlexSection × Str) :=
  match sections with
  | [] => []
  | s :: rest =>
    (if (library_type == str "Movies" && s.sectionType == str "movie")
        || (library_type == str "Series" && s.sectionType == str "show") then
      s.locations.map (fun l => (s, l))
    else []) ++ plexMatchingSections rest library_type

/-- Second pass of `MediaServerScanner._scan_plex`: walk the candidates in
order; for each candidate first test whether its normalized location is a
literal string prefix of the normalized scan path, then whether it occurs
as a substring; the first candidate passing either test wins and the loop
breaks. -/
def plexPickSection (cands : List (PlexSection × Str)) (path : Str) :
    Option Str :=
  match cands with
  | [] => none
  | (sec, loc) :: rest =>
    if (asPosix loc).isPrefixOf (asPosix path) then some sec.key
    else if strContains (asPosix path) (asPosix loc) then some sec.key
    else plexPickSection rest path

/-- Section selection of `MediaServerScanner._scan_plex` (the pure core of
steps 2 and 3, after the sections have been fetched): errors when no
section of the requested kind exists or no candidate matches the path. -/
def scanPlexSelect (sections : List PlexSection) (library_type path : Str) :
    Except Str Str :=
  let cands := plexMatchingSections sections library_type
  if cands.isEmpty then
    .error (str "No " ++ library_type ++ str " libraries found in Plex")
  else
    match plexPickSection cands path with
    | some k => .ok k
    | none =>
      .error (str "No matching library section found for path: " ++ path)

/-- Successful outcome of a Plex scan: the selected section id and the path
passed as the refresh query parameter (the source dict also carries a fixed
message and the full scan URL, which add no information). -/
structure ScanOk where
  sectionId : Str
  path : Str
deriving DecidableEq, Repr

/-- `MediaServerScanner._scan_plex` given the section list the server
reported, assuming the two HTTP calls succeed: select a section for the
path and issue `library/sections/id/refresh?path=path` with the exact
(unmodified) path. -/
def scanPlexPure (sections : List PlexSection) (library_type path : Str) :
    Except Str ScanOk :=
  match scanPlexSelect sections library_type path with
  | .error e => .error e
  | .ok k => .ok ⟨k, path⟩

/-- A configured media server entry (`media_servers` in the YAML config,
also the shape of the pydantic server models): the `type` field is named
`stype` here because `type` is reserved in Lean. -/
structure MediaServerCfg where
  name : Str
  stype : Str
  url : Str
  enabled : Bool
  rewrite : List PathRewrite
deriving DecidableEq, Repr

/-- The three server type strings `MediaServerScanner` recognizes. -/
def knownServerType (t : Str) : Bool :=
  t == str "plex" || t == str "jellyfin" || t == str "emby"

/-- `MediaServerScanner.__init__`: instantiate a server object per
configured entry whose type is `plex`, `jellyfin` or `emby`; entries with
any other type string fall through every branch and are silently dropped
(the enabled flag is not consulted here). -/
def scannerInit (servers : List MediaServerCfg) : List MediaServerCfg :=
  match servers with
  | [] => []
  | s :: rest =>
    if s.stype == str "plex" then s :: scannerInit rest
    else if s.stype == str "jellyfin" then s :: scannerInit rest
    else if s.stype == str "emby" then s :: scannerInit rest
    else scannerInit rest

/-- One entry of the list returned by `MediaServerScanner.scan_path`.
Synthetic entries carry no server name or type. -/
structure ScanResult where
  server : Option Str
  stype : Option Str
  status : Str
  result : Option ScanOk
  error : Option Str
deriving DecidableEq, Repr

/-- Entry recorded for one server: a success entry when its adapter
returned, an error entry when it raised. -/
def mkScanEntry (s : MediaServerCfg) : Except Str ScanOk → ScanResult
  | .ok r => ⟨some s.name, some s.stype, str "success", some r, none⟩
  | .error e => ⟨some s.name, some s.stype, str "error", none, some e⟩

/-- A synthetic result dict with only status and error keys. -/
def syntheticError (msg : Str) : ScanResult :=
  ⟨none, none, str "error", none, some msg⟩

/-- The per-server loop of `MediaServerScanner.scan_path`: skip disabled
servers; dispatch on the type string, calling the adapter (whose network
outcome is the oracle argument: `ok` models a normal return, `error` an
exception, which the `except` branch records); a server with an unknown
type string hits the `else: continue` and produces no entry. -/
def scanLoop (servers : List MediaServerCfg)
    (adapter : MediaServerCfg → Str → Except Str ScanOk) (path : Str) :
    List ScanResult :=
  match servers with
  | [] => []
  | s :: rest =>
    if !s.enabled then scanLoop rest adapter path
    else if s.stype == str "plex" then
      mkScanEntry s (adapter s path) :: scanLoop rest adapter path
    else if s.stype == str "jellyfin" then
      mkScanEntry s (adapter s path) :: scanLoop rest adapter path
    else if s.stype == str "emby" then
      mkScanEntry s (adapter s path) :: scanLoop rest adapter path
    else scanLoop rest adapter path

/-- `MediaServerScanner.scan_path` (the scan dispatcher): the scan path is
handed to every adapter exactly as received (`scan_path = path` in the
source for both movies and series); empty server list, all-disabled list
and an empty result list each yield a single synthetic error entry. -/
def scan_path (servers : List MediaServerCfg)
    (adapter : MediaServerCfg → Str → Except Str ScanOk) (path : Str) :
    List ScanResult :=
  if servers.isEmpty then [syntheticError (str "No media servers configured")]
  else if (servers.filter (fun s => s.enabled)).isEmpty then
    [syntheticError (str "All media servers are disabled")]
  else
    let results := scanLoop servers adapter path
    if results.isEmpty then
      [syntheticError (str "No scan results were generated")]
    else results

/-- With every server of a recognized type (the invariant `scannerInit`
establishes), the loop records exactly one entry per enabled server, in
order. -/
theorem scanLoop_eq_map (servers : List MediaServerCfg)
    (adapter : MediaServerCfg → Str → Except Str ScanOk) (path : Str)
    (h : ∀ s ∈ servers, knownServerType s.stype = true) :
    scanLoop servers adapter path =
      (servers.filter (fun s => s.enabled)).map
        (fun s => mkScanEntry s (adapter s path)) := by
  induction servers with
  | nil => simp [scanLoop]
  | cons s rest ih =>
    have hs := h s (by simp)
    have hrest : ∀ x ∈ rest, knownServerType x.stype = true :=
      fun x hx => h x (List.mem_cons_of_mem _ hx)
    by_cases he : s.enabled
    · by_cases h1 : (s.stype == str "plex") = true
      · simp [scanLoop, he, h1, List.filter_cons, ih hrest]
      · by_cases h2 : (s.stype == str "jellyfin") = true
        · simp [scanLoop, he, h1, h2, List.filter_cons, ih hrest]
        · by_cases h3 : (s.stype == str "emby") = true
          · simp [scanLoop, he, h1, h2, h3, List.filter_cons, ih hrest]
          · exfalso
            simp only [knownServerType, Bool.or_eq_true] at hs
            rcases hs with (hs | hs) | hs
            · exact h1 hs
            · exact h2 hs
            · exact h3 hs
    · simp [scanLoop, he, List.filter_cons, ih hrest]

/-- `scannerInit` keeps exactly the entries with a recognized type string,
in order, unchanged. -/
theorem scannerInit_eq_filter (servers : List MediaServerCfg) :
    scannerInit servers = servers.filter (fun s => knownServerType s.stype) := by
  induction servers with
  | nil => simp [scannerInit]
  | cons s rest ih =>
    by_cases h1 : (s.stype == str "plex") = true
    · simp [scannerInit, h1, List.filter_cons, knownServerType, ih]
    · by_cases h2 : (s.stype == str "jellyfin") = true
      · simp [scannerInit, h1, h2, List.filter_cons, knownServerType, ih]
      · by_cases h3 : (s.stype == str "emby") = true
        · simp [scannerInit, h1, h2, h3, List.filter_cons, knownServerType, ih]
        · simp [scannerInit, h1, h2, h3, List.filter_cons, knownServerType, ih]

/-- Configuration of one source-manager instance (the fields of
`models.SonarrInstance` / `models.RadarrInstance` the sync handlers
consult). -/
structure ArrInstanceCfg where
  name : Str
  search_on_sync : Bool
  enabled_events : List Str
deriving DecidableEq, Repr

/-- Status tag of one per-instance sync result entry. -/
inductive SyncStatus
  | success
  | skipped
  | error
deriving DecidableEq, Repr

/-- One per-instance result entry (the source dicts also carry a reason or
error string, which the claims do not consult). -/
structure SyncEntry where
  instName : Str
  status : SyncStatus
deriving DecidableEq, Repr

/-- A remote mutation issued against a source-manager instance. -/
inductive ArrAction
  | addSeries (inst : Str)
  | searchSeries (inst : Str)
  | refreshSeries (inst : Str)
  | deleteSeries (inst : Str)
  | deleteEpisodeFile (inst : Str)
  | refreshMovie (inst : Str)
  | deleteMovie (inst : Str)
  | deleteMovieFile (inst : Str)
deriving DecidableEq, Repr

/-- Loop body of `sonarr_service.handle_sonarr_rename` for one instance.
`present` is the outcome of `get_series_by_tvdb_id` (the only remote state
the branch consults; transport is assumed healthy).  When the series
already exists the entry is `skipped`; when it does NOT exist the handler
calls `add_series` (and `search_series` when `search_on_sync` is set) and
records `success`. -/
def sonarrRenameStep (inst : ArrInstanceCfg) (present : Bool) :
    SyncEntry × List ArrAction :=
  if present then (⟨inst.name, .skipped⟩, [])
  else
    (⟨inst.name, .success⟩,
      .addSeries inst.name ::
        if inst.search_on_sync then [.searchSeries inst.name] else [])

/-- Loop body of the `handle_sonarr_rename` defined in `main.py` for one
instance: refresh and `success` when the series exists, `skipped` when it
does not. -/
def mainSonarrRenameStep (inst : ArrInstanceCfg) (present : Bool) :
    SyncEntry × List ArrAction :=
  if present then (⟨inst.name, .success⟩, [.refreshSeries inst.name])
  else (⟨inst.name, .skipped⟩, [])

/-- Loop body of `radarr_service.handle_radarr_rename` for one instance:
refresh and `success` when the movie exists, `skipped` when it does not. -/
def radarrRenameStep (inst : ArrInstanceCfg) (present : Bool) :
    SyncEntry × List ArrAction :=
  if present then (⟨inst.name, .success⟩, [.refreshMovie inst.name])
  else (⟨inst.name, .skipped⟩, [])

/-- Loop body of `sonarr_service.handle_sonarr_delete` for one instance.
For `SeriesDelete`, `SonarrInstance.delete_series` first looks the series
up by catalog id and raises `ValueError` when absent; the handler's
`except` turns that into an `error` entry.  For `EpisodeFileDelete`,
`delete_episode` deletes by file id and raises on a non-200 response
(`epDeleteOk` is that remote outcome).  Any other event type runs neither
branch and still appends a `success` entry. -/
def sonarrDeleteStep (event_type : Str) (inst : ArrInstanceCfg)
    (present : Bool) (epDeleteOk : Bool) : SyncEntry × List ArrAction :=
  if event_type == str "SeriesDelete" then
    if present then (⟨inst.name, .success⟩, [.deleteSeries inst.name])
    else (⟨inst.name, .error⟩, [])
  else if event_type == str "EpisodeFileDelete" then
    if epDeleteOk then (⟨inst.name, .success⟩, [.deleteEpisodeFile inst.name])
    else (⟨inst.name, .error⟩, [])
  else (⟨inst.name, .success⟩, [])

/-- Loop body of `radarr_service.handle_radarr_delete` for one instance,
mirroring `sonarrDeleteStep` with `MovieDelete` / `MovieFileDelete`. -/
def radarrDeleteStep (event_type : Str) (inst : ArrInstanceCfg)
    (present : Bool) (fileDeleteOk : Bool) : SyncEntry × List ArrAction :=
  if event_type == str "MovieDelete" then
    if present then (⟨inst.name, .success⟩, [.deleteMovie inst.name])
    else (⟨inst.name, .error⟩, [])
  else if event_type == str "MovieFileDelete" then
    if fileDeleteOk then (⟨inst.name, .success⟩, [.deleteMovieFile inst.name])
    else (⟨inst.name, .error⟩, [])
  else (⟨inst.name, .success⟩, [])

/-- The per-instance loop shared by the rename handlers: one entry per
instance, actions concatenated in order. -/
def runSyncLoop (step : ArrInstanceCfg → Bool → SyncEntry × List ArrAction)
    (insts : List (ArrInstanceCfg × Bool)) : List SyncEntry × List ArrAction :=
  match insts with
  | [] => ([], [])
  | (i, p) :: rest =>
    let e := step i p
    let es := runSyncLoop step rest
    (e.1 :: es.1, e.2 ++ es.2)

/-- `sonarr_service.handle_sonarr_rename` over its instance list (each
paired with its lookup outcome). -/
def handle_sonarr_rename (insts : List (ArrInstanceCfg × Bool)) :
    List SyncEntry × List ArrAction :=
  runSyncLoop sonarrRenameStep insts

/-- `radarr_service.handle_radarr_rename` over its instance list. -/
def handle_radarr_rename (insts : List (ArrInstanceCfg × Bool)) :
    List SyncEntry × List ArrAction :=
  runSyncLoop radarrRenameStep insts

/-- `sonarr_service.handle_sonarr_delete` over its instance list (each
paired with its lookup outcome and its remote file-delete outcome). -/
def handle_sonarr_delete (event_type : Str)
    (insts : List (ArrInstanceCfg × Bool × Bool)) :
    List SyncEntry × List ArrAction :=
  match insts with
  | [] => ([], [])
  | (i, p, ok) :: rest =>
    let e := sonarrDeleteStep event_type i p ok
    let es := handle_sonarr_delete event_type rest
    (e.1 :: es.1, e.2 ++ es.2)

/-- `radarr_service.handle_radarr_delete` over its instance list. -/
def handle_radarr_delete (event_type : Str)
    (insts : List (ArrInstanceCfg × Bool × Bool)) :
    List SyncEntry × List ArrAction :=
  match insts with
  | [] => ([], [])
  | (i, p, ok) :: rest =>
    let e := radarrDeleteStep event_type i p ok
    let es := handle_radarr_delete event_type rest
    (e.1 :: es.1, e.2 ++ es.2)

/-- Python `s.lower()` for ASCII strings. -/
def lowerStr (s : Str) : Str := s.map Char.toLower

/-- The parts of a webhook JSON body that `webhook_handler` and
`process_webhook` consult.  `eventType` is `none` when the key is absent;
the empty string is also falsy in Python.  `hasSeries` / `hasMovie` model
key presence (`"series" in payload`); the path fields model the nested
`get` chains with their empty-string defaults.  `sonarrShapeOk` /
`radarrShapeOk` model whether the pydantic `SonarrWebhook` /
`RadarrWebhook` validation of the full payload succeeds (a failure raises
`ValidationError`, a `ValueError`). -/
structure WebhookBody where
  eventType : Option Str
  hasSeries : Bool
  seriesPath : Str
  episodeFilePath : Str
  hasMovie : Bool
  movieFolderPath : Str
  movieFilePath : Str
  manualPath : Option Str
  manualContentType : Option Str
  sonarrShapeOk : Bool
  radarrShapeOk : Bool
deriving DecidableEq, Repr

/-- The webhook_events section of the configuration snapshot. -/
structure RouterConfig where
  sonarrEvents : List Str
  radarrEvents : List Str
deriving DecidableEq, Repr

/-- Routing outcome of the background `process_webhook` task (the value it
returns; the caller never sees it).  `handled` records which handler
function is invoked and the names of the instances passed to it, which is
the complete routing decision; `scanOnly` is the no-instances Import path
that still scans media servers with the given path. -/
inductive RouteResult
  | manualScan (path contentType : Option Str)
  | ignoredRoute (reason : Str)
  | scanOnly (path : Str) (isSeries : Bool)
  | handled (handler : Str) (instances : List Str)
  | validationError (family : Str)
  | errorRoute (reason : Str)
deriving DecidableEq, Repr

/-- The instance filter of `process_webhook`: instances whose
`enabled_events` contain the event type, case-insensitively. -/
def filterValidInstances (insts : List ArrInstanceCfg) (event_type : Str) :
    List ArrInstanceCfg :=
  insts.filter
    (fun i => (i.enabled_events.map lowerStr).contains (lowerStr event_type))

/-- Sonarr side of `process_webhook` after the Download-to-Import
normalization (`et2` is the normalized event type). -/
def sonarrRoute (insts : List ArrInstanceCfg) (p : WebhookBody) (et2 : Str) :
    RouteResult :=
  if !p.sonarrShapeOk then .validationError (str "sonarr")
  else
    let valid := filterValidInstances insts et2
    if valid.isEmpty then
      if et2 == str "Import" then
        if !p.episodeFilePath.isEmpty then .scanOnly p.episodeFilePath true
        else if !p.seriesPath.isEmpty then .scanOnly p.seriesPath true
        else .ignoredRoute (str "No instances configured for " ++ et2)
      else .ignoredRoute (str "No instances configured for " ++ et2)
    else
      if et2 == str "Grab" then
        .handled (str "handle_sonarr_grab") (valid.map (fun i => i.name))
      else if et2 == str "Import" then
        .handled (str "handle_sonarr_import") (valid.map (fun i => i.name))
      else if et2 == str "SeriesDelete" || et2 == str "EpisodeFileDelete" then
        .handled (str "handle_sonarr_delete") (valid.map (fun i => i.name))
      else if et2 == str "SeriesAdd" then
        .handled (str "handle_sonarr_series_add") (valid.map (fun i => i.name))
      else .ignoredRoute (str "Unhandled event type: " ++ et2)

/-- Radarr side of `process_webhook` after the Download-to-Import
normalization.  On the no-instances Import path the movie file path is
preferred, reduced to its parent folder; otherwise the movie folder path
is used. -/
def radarrRoute (insts : List ArrInstanceCfg) (p : WebhookBody) (et2 : Str) :
    RouteResult :=
  if !p.radarrShapeOk then .validationError (str "radarr")
  else
    let valid := filterValidInstances insts et2
    if valid.isEmpty then
      if et2 == str "Import" then
        if !p.movieFilePath.isEmpty then
          .scanOnly (posixParent p.movieFilePath) false
        else if !p.movieFolderPath.isEmpty then
          .scanOnly p.movieFolderPath false
        else .ignoredRoute (str "No instances configured for " ++ et2)
      else .ignoredRoute (str "No instances configured for " ++ et2)
    else
      if et2 == str "Grab" then
        .handled (str "handle_radarr_grab") (valid.map (fun i => i.name))
      else if et2 == str "Import" then
        .handled (str "handle_radarr_import") (valid.map (fun i => i.name))
      else if et2 == str "MovieDelete" || et2 == str "MovieFileDelete" then
        .handled (str "handle_radarr_delete") (valid.map (fun i => i.name))
      else if et2 == str "MovieAdded" then
        .handled (str "handle_radarr_movie_add") (valid.map (fun i => i.name))
      else .ignoredRoute (str "Unhandled event type: " ++ et2)

/-- `main.process_webhook` as a routing function.  The supported-event
check against the configured `webhook_events` list runs FIRST, on the raw
event type; only then is `Download` normalized to `Import`.  A payload
with neither a `series` nor a `movie` key raises `ValueError`, which the
trailing `except` converts into an error result (of the background task
only).  The internals of the ManualScan branch concern no claim and are
kept abstract in the `manualScan` constructor. -/
def process_webhook (cfg : RouterConfig) (sonarrInsts radarrInsts : List ArrInstanceCfg)
    (p : WebhookBody) (event_type : Str) : RouteResult :=
  if event_type == str "ManualScan" then
    .manualScan p.manualPath p.manualContentType
  else if p.hasSeries then
    if !(cfg.sonarrEvents.contains event_type) then
      .ignoredRoute (str "Unsupported event type: " ++ event_type)
    else
      sonarrRoute sonarrInsts p
        (if event_type == str "Download" then str "Import" else event_type)
  else if p.hasMovie then
    if !(cfg.radarrEvents.contains event_type) then
      .ignoredRoute (str "Unsupported event type: " ++ event_type)
    else
      radarrRoute radarrInsts p
        (if event_type == str "Download" then str "Import" else event_type)
  else
    .errorRoute (str "Webhook must contain either series or movie data")

/-- The synchronous part of the `/webhook` endpoint. -/
structure HandlerResponse where
  statusCode : ℕ
  status : Str
  taskStarted : Bool
deriving DecidableEq, Repr

/-- Python truthiness of an optional string. -/
def optionStrTruthy : Option Str → Bool
  | none => false
  | some s => !s.isEmpty

/-- `main.webhook_handler`: the only synchronous validation is that
`payload.get("eventType")` is truthy; a falsy event type raises
`ValueError`, answered with a 400 error response and no background task;
otherwise the endpoint answers 200 `received` and schedules
`process_webhook` as a background task. -/
def webhook_handler (p : WebhookBody) : HandlerResponse :=
  if !optionStrTruthy p.eventType then ⟨400, str "error", false⟩
  else ⟨200, str "received", true⟩

/-- Claim C9: parse_time_string maps "500ms" to 0.5, "5s" to 5.0, "2m" to
120.0 and "10" to 10.0 (bare integers are seconds), and maps an invalid
string such as "garbage" to 0.0 instead of raising. -/
theorem C9_parse_time_string_values :
    parse_time_string (str "500ms") = 1/2 ∧
    parse_time_string (str "5s") = 5 ∧
    parse_time_string (str "2m") = 120 ∧
    parse_time_string (str "10") = 10 ∧
    parse_time_string (str "garbage") = 0 := by
  refine ⟨?_, ?_, ?_, ?_, ?_⟩
  · show ((500 : ℕ) : ℚ) / 1000 = 1/2
    norm_num
  · show ((5 : ℕ) : ℚ) = 5
    norm_num
  · show ((2 : ℕ) : ℚ) * 60 = 120
    norm_num
  · show ((10 : ℕ) : ℚ) = 10
    norm_num
  · decide

/-- Claim C6, counterexample: the claim quantifies over every rule list and
predicts that the first rule whose from-prefix is a literal prefix fires;
but `rewrite_path` additionally requires both prefixes to be non-empty
(Python truthiness), so the rule ("/a", "") is skipped: the from-prefix
"/a" IS a prefix of "/a/b/c", yet the path is returned unchanged instead of
the predicted "/b/c". -/
theorem C6_counterexample :
    (str "/a").isPrefixOf (str "/a/b/c") = true ∧
    rewrite_path (str "/a/b/c") [⟨str "/a", []⟩] = str "/a/b/c" ∧
    rewrite_path (str "/a/b/c") [⟨str "/a", []⟩] ≠ str "/b/c" := by
  decide

/-- Claim C6, amended: rules with an empty from-prefix or to-prefix are
skipped; among the remaining rules the first (in list order, not the
longest) whose from-prefix is a literal prefix of the path fires, replacing
that prefix exactly once and preserving the remainder verbatim; when no
such rule exists the path passes through unchanged.  In particular the
rules [("/a","/x"), ("/a/b","/y")] rewrite "/a/b/c" to "/x/b/c". -/
theorem C6_rewrite_first_match_amended (path : Str) (rules : List PathRewrite) :
    (rewrite_path path rules =
      match rules.find? (ruleMatches path) with
      | none => path
      | some r => r.to_path ++ path.drop r.from_path.length) ∧
    rewrite_path (str "/a/b/c") [⟨str "/a", str "/x"⟩, ⟨str "/a/b", str "/y"⟩] =
      str "/x/b/c" := by
  exact ⟨rewrite_path_characterization path rules, by decide⟩

/-- A rule that can ever fire: both of its prefixes are non-empty. -/
def ruleEffective (r : PathRewrite) : Bool :=
  !r.from_path.isEmpty && !r.to_path.isEmpty

/-- Claim C8: when no effective rule's to-prefix is prefix-comparable with
any effective rule's from-prefix (so a rewritten path can never re-match a
rule), rewrite_path is idempotent. -/
theorem C8_rewrite_path_idempotent (p : Str) (R : List PathRewrite)
    (h : ∀ r ∈ R, ∀ r2 ∈ R, ruleEffective r = true → ruleEffective r2 = true →
      r2.from_path.isPrefixOf r.to_path = false ∧
      r.to_path.isPrefixOf r2.from_path = false) :
    rewrite_path (rewrite_path p R) R = rewrite_path p R := by
  rcases hfind : R.find? (ruleMatches p) with _ | r
  · have hq : rewrite_path p R = p := by
      rw [rewrite_path_characterization, hfind]
    rw [hq]
    exact hq
  · have hq : rewrite_path p R = r.to_path ++ p.drop r.from_path.length := by
      rw [rewrite_path_characterization, hfind]
    have hrmem : r ∈ R := List.mem_of_find?_eq_some hfind
    have hrmatch : ruleMatches p r = true := List.find?_some hfind
    have hreff : ruleEffective r = true := by
      simp only [ruleMatches, Bool.and_eq_true] at hrmatch
      simp only [ruleEffective, Bool.and_eq_true]
      exact hrmatch.1
    have hnone : R.find? (ruleMatches (rewrite_path p R)) = none := by
      apply List.find?_eq_none.mpr
      intro r2 hr2 hm
      have hr2eff : ruleEffective r2 = true := by
        simp only [ruleMatches, Bool.and_eq_true] at hm
        simp only [ruleEffective, Bool.and_eq_true]
        exact hm.1
      have hpre : r2.from_path.isPrefixOf (rewrite_path p R) = true := by
        simp only [ruleMatches, Bool.and_eq_true] at hm
        exact hm.2
      rw [hq] at hpre
      rcases isPrefixOf_append_cases _ _ _ hpre with hc | hc
      · rw [(h r hrmem r2 hr2 hreff hr2eff).1] at hc
        exact Bool.false_ne_true hc
      · rw [(h r hrmem r2 hr2 hreff hr2eff).2] at hc
        exact Bool.false_ne_true hc
    rw [rewrite_path_characterization (rewrite_path p R) R, hnone]

/-- Witness for C8: a concrete non-chaining rule list and path, with the
hypothesis discharged by computation. -/
theorem C8_rewrite_path_idempotent_witness :
    rewrite_path (rewrite_path (str "/a/b") [⟨str "/a", str "/x"⟩])
        [⟨str "/a", str "/x"⟩] =
      rewrite_path (str "/a/b") [⟨str "/a", str "/x"⟩] :=
  C8_rewrite_path_idempotent (str "/a/b") [⟨str "/a", str "/x"⟩] (by decide)

deriving instance DecidableEq for Except

/-- The two movie sections of the C1 scenario, in declared order: keys "1"
(rooted at /data/movies) and "2" (rooted at /data/movies4k). -/
def c1Sections : List PlexSection :=
  [⟨str "1", str "movie", str "Movies", [str "/data/movies"]⟩,
   ⟨str "2", str "movie", str "Movies 4K", [str "/data/movies4k"]⟩]

/-- Claim C1, counterexample: with movie sections rooted at /data/movies and
/data/movies4k in that order, the path /data/movies4k/Foo (2020) resolves
to the /data/movies section (key "1"), because the per-candidate
`startswith` test has no directory-boundary awareness and /data/movies is a
plain string prefix of the path; the claim requires the /data/movies4k
section (key "2"). -/
theorem C1_counterexample :
    scanPlexSelect c1Sections (str "Movies") (str "/data/movies4k/Foo (2020)") =
      .ok (str "1") ∧
    scanPlexSelect c1Sections (str "Movies") (str "/data/movies4k/Foo (2020)") ≠
      .ok (str "2") := by
  decide

/-- Claim C1, amended: the Plex adapter walks the candidate
(section, location) pairs of the requested kind in declared order in a
single pass and selects the first candidate whose normalized location is a
plain string prefix of the normalized scan path or a substring of it;
there is no directory-boundary tier and no all-candidates prefix pass
before the containment fallback, so /data/movies4k/Foo (2020) resolves to
the /data/movies section. -/
theorem C1_plex_selection_amended (cands : List (PlexSection × Str)) (path : Str) :
    (plexPickSection cands path =
      (cands.find? (fun c =>
        (asPosix c.2).isPrefixOf (asPosix path) ||
          strContains (asPosix path) (asPosix c.2))).map
        (fun c => c.1.key)) ∧
    scanPlexSelect c1Sections (str "Movies") (str "/data/movies4k/Foo (2020)") =
      .ok (str "1") := by
  constructor
  · induction cands with
    | nil => simp [plexPickSection]
    | cons c rest ih =>
      obtain ⟨sec, loc⟩ := c
      by_cases h1 : ((asPosix loc).isPrefixOf (asPosix path)) = true
      · simp [plexPickSection, h1, List.find?_cons_of_pos]
      · by_cases h2 : strContains (asPosix path) (asPosix loc) = true
        · simp [plexPickSection, h1, h2, List.find?_cons_of_pos, List.find?_cons_of_neg]
        · simp [plexPickSection, h1, h2, List.find?_cons_of_neg, ih]
  · decide

/-- Servers for the C2 witness: an enabled Plex server, a disabled
Jellyfin server and an enabled Emby server whose adapter raises. -/
def c2Servers : List MediaServerCfg :=
  [⟨str "P", str "plex", str "http://p", true, []⟩,
   ⟨str "J", str "jellyfin", str "http://j", false, []⟩,
   ⟨str "E", str "emby", str "http://e", true, []⟩]

/-- Adapter oracle for the C2 witness: the Emby server raises, the others
succeed. -/
def c2Adapter : MediaServerCfg → Str → Except Str ScanOk :=
  fun s p => if s.name == str "E" then .error (str "boom") else .ok ⟨str "7", p⟩

/-- Claim C2: for servers of recognized types (the invariant `scannerInit`
establishes for the scanner's own list), the dispatcher returns exactly one
entry per enabled server, in order - disabled servers are skipped, an
adapter exception becomes that server's error entry without stopping the
remaining servers - and an empty or all-disabled server list yields a
single synthetic error entry, never an empty list. -/
theorem C2_scan_dispatcher (servers : List MediaServerCfg)
    (adapter : MediaServerCfg → Str → Except Str ScanOk) (path : Str)
    (h : ∀ s ∈ servers, knownServerType s.stype = true) :
    (servers.isEmpty = true →
      scan_path servers adapter path =
        [syntheticError (str "No media servers configured")]) ∧
    (servers.isEmpty = false →
      (servers.filter (fun s => s.enabled)).isEmpty = true →
      scan_path servers adapter path =
        [syntheticError (str "All media servers are disabled")]) ∧
    ((servers.filter (fun s => s.enabled)).isEmpty = false →
      scan_path servers adapter path =
        (servers.filter (fun s => s.enabled)).map
          (fun s => mkScanEntry s (adapter s path))) ∧
    scan_path servers adapter path ≠ [] := by
  refine ⟨?_, ?_, ?_, ?_⟩
  · intro he
    simp [scan_path, he]
  · intro hne hfe
    simp [scan_path, hne, hfe]
  · intro hf
    have hne : servers.isEmpty = false := by
      cases servers with
      | nil => simp at hf
      | cons a l => simp
    have hloop := scanLoop_eq_map servers adapter path h
    have hres : (scanLoop servers adapter path).isEmpty = false := by
      rw [hloop]
      cases hfilter : servers.filter (fun s => s.enabled) with
      | nil => rw [hfilter] at hf; simp at hf
      | cons a l => simp
    simp only [scan_path, hne, hf, hres, Bool.false_eq_true, if_false]
    exact hloop
  · by_cases he : servers.isEmpty = true
    · simp [scan_path, he]
    · by_cases hf : (servers.filter (fun s => s.enabled)).isEmpty = true
      · simp [scan_path, he, hf]
      · by_cases hr : (scanLoop servers adapter path).isEmpty = true
        · simp [scan_path, he, hf, hr]
        · simp only [scan_path, he, hf, hr, Bool.false_eq_true, if_false]
          intro hcontra
          rw [hcontra] at hr
          simp at hr

/-- Witness for C2: the three-server scenario, with the type hypothesis
discharged by computation; the result is one entry per enabled server with
the failing server recorded as an error entry. -/
theorem C2_scan_dispatcher_witness :
    scan_path c2Servers c2Adapter (str "/data/x") =
      (c2Servers.filter (fun s => s.enabled)).map
        (fun s => mkScanEntry s (c2Adapter s (str "/data/x"))) :=
  (C2_scan_dispatcher c2Servers c2Adapter (str "/data/x") (by decide)).2.2.1
    (by decide)

/-- Raw server list for C10: an enabled server of unrecognized type "kodi"
followed by an enabled Plex server. -/
def c10Servers : List MediaServerCfg :=
  [⟨str "K", str "kodi", str "http://k", true, []⟩,
   ⟨str "P", str "plex", str "http://p", true, []⟩]

/-- Adapter oracle for C10: every scan succeeds. -/
def c10Adapter : MediaServerCfg → Str → Except Str ScanOk :=
  fun _ p => .ok ⟨str "1", p⟩

/-- Claim C10: the scanner constructor keeps exactly the entries whose type
string is plex, jellyfin or emby (an enabled server of any other type is
silently dropped and can produce no scan entry), so for the concrete list
with an enabled "kodi" server and an enabled Plex server the pipeline
returns one result entry while two servers are enabled. -/
theorem C10_unknown_type_dropped (servers : List MediaServerCfg) :
    scannerInit servers = servers.filter (fun s => knownServerType s.stype) ∧
    (scannerInit c10Servers).length = 1 ∧
    (c10Servers.filter (fun s => s.enabled)).length = 2 ∧
    (scan_path (scannerInit c10Servers) c10Adapter (str "/data/x")).length = 1 := by
  exact ⟨scannerInit_eq_filter servers, by decide, by decide, by decide⟩

/-- The instance used in the C3 evaluation. -/
def c3Inst : ArrInstanceCfg := ⟨str "A", false, []⟩

/-- Claim C3: evaluation of the four handlers at an instance that does not
contain the referenced item.  The radarr rename handler records `skipped`
with no mutation and both delete handlers record `error`, as the claim
states; but the sonarr rename handler of sonarr_service.py ADDS the series
(a mutation) and records `success` - the behaviour the claim ascribes to it
is implemented only by the (never dispatched) duplicate handler in main.py,
whose per-instance branch is `mainSonarrRenameStep`. -/
theorem C3_rename_delete_asymmetry :
    handle_sonarr_rename [(c3Inst, false)] =
      ([⟨str "A", .success⟩], [.addSeries (str "A")]) ∧
    handle_radarr_rename [(c3Inst, false)] = ([⟨str "A", .skipped⟩], []) ∧
    handle_sonarr_delete (str "SeriesDelete") [(c3Inst, false, true)] =
      ([⟨str "A", .error⟩], []) ∧
    handle_sonarr_delete (str "EpisodeFileDelete") [(c3Inst, true, false)] =
      ([⟨str "A", .error⟩], []) ∧
    handle_radarr_delete (str "MovieDelete") [(c3Inst, false, true)] =
      ([⟨str "A", .error⟩], []) ∧
    handle_radarr_delete (str "MovieFileDelete") [(c3Inst, true, false)] =
      ([⟨str "A", .error⟩], []) ∧
    mainSonarrRenameStep c3Inst false = (⟨str "A", .skipped⟩, []) := by
  decide

/-- A payload whose eventType key is absent. -/
def c4Missing : WebhookBody :=
  ⟨none, false, [], [], false, [], [], none, none, true, true⟩

/-- A payload with an eventType but neither a series nor a movie key. -/
def c4NoContent : WebhookBody :=
  ⟨some (str "Test"), false, [], [], false, [], [], none, none, true, true⟩

/-- An arbitrary router configuration for the C4 scenarios. -/
def c4Cfg : RouterConfig := ⟨[], []⟩

/-- Claim C4, counterexample: a payload with an eventType but neither a
series nor a movie object is NOT rejected synchronously - the endpoint
answers 200 `received` and does start the background task (the
missing-discriminant ValueError is raised and swallowed inside the task);
the claim requires a 400 response with no background work. -/
theorem C4_counterexample :
    c4NoContent.hasSeries = false ∧
    c4NoContent.hasMovie = false ∧
    webhook_handler c4NoContent = ⟨200, str "received", true⟩ ∧
    (webhook_handler c4NoContent).statusCode ≠ 400 ∧
    (webhook_handler c4NoContent).taskStarted = true := by
  decide

/-- Claim C4, amended: only a missing (or empty) eventType is rejected
synchronously with 400 and no background task; a payload with an eventType
but neither series nor movie key (and not a ManualScan) is acknowledged
with 200, a background task IS started, and that task terminates with an
error result that the HTTP caller never sees. -/
theorem C4_webhook_validation_amended (p : WebhookBody) (cfg : RouterConfig)
    (sIns rIns : List ArrInstanceCfg) :
    (optionStrTruthy p.eventType = false →
      webhook_handler p = ⟨400, str "error", false⟩) ∧
    (∀ et, p.eventType = some et → optionStrTruthy p.eventType = true →
      webhook_handler p = ⟨200, str "received", true⟩ ∧
      (p.hasSeries = false → p.hasMovie = false → et ≠ str "ManualScan" →
        process_webhook cfg sIns rIns p et =
          .errorRoute (str "Webhook must contain either series or movie data"))) := by
  constructor
  · intro hfal
    simp [webhook_handler, hfal]
  · intro et _ htru
    constructor
    · simp [webhook_handler, htru]
    · intro hs hm hms
      have hbe : (et == str "ManualScan") = false :=
        beq_eq_false_iff_ne.mpr hms
      simp [process_webhook, hbe, hs, hm]

/-- Witness for C4 amended: the two concrete payloads, hypotheses
discharged by computation. -/
theorem C4_webhook_validation_amended_witness :
    webhook_handler c4Missing = ⟨400, str "error", false⟩ ∧
    webhook_handler c4NoContent = ⟨200, str "received", true⟩ ∧
    process_webhook c4Cfg [] [] c4NoContent (str "Test") =
      .errorRoute (str "Webhook must contain either series or movie data") := by
  refine ⟨?_, ?_, ?_⟩
  · exact (C4_webhook_validation_amended c4Missing c4Cfg [] []).1 (by decide)
  · exact ((C4_webhook_validation_amended c4NoContent c4Cfg [] []).2
      (str "Test") (by decide) (by decide)).1
  · exact (((C4_webhook_validation_amended c4NoContent c4Cfg [] []).2
      (str "Test") (by decide) (by decide)).2 (by decide) (by decide) (by decide))

/-- The Plex server of the C5 scenario, with a configured rewrite rule from
/data to /mnt. -/
def c5Server : MediaServerCfg :=
  ⟨str "P", str "plex", str "http://p", true, [⟨str "/data", str "/mnt"⟩]⟩

/-- The section list the C5 Plex server reports. -/
def c5Sections : List PlexSection :=
  [⟨str "5", str "movie", str "Movies", [str "/data/movies"]⟩]

/-- Adapter for the C5 scenario: the real Plex selection logic over the
fixed section list, applied to whatever path the dispatcher hands over. -/
def c5Adapter : MediaServerCfg → Str → Except Str ScanOk :=
  fun _ p => scanPlexPure c5Sections (str "Movies") p

/-- Claim C5: evaluation at the failing input.  The server's rewrite rules
would map /data/movies/Foo to /mnt/movies/Foo, but the dispatcher never
invokes rewrite_path (its single call site in the code base applies a
source-manager instance's rules, not a media server's): the adapter
receives, matches and issues the refresh for the original, un-rewritten
path, as the recorded result entry shows. -/
theorem C5_dispatcher_skips_server_rewrite :
    rewrite_path (str "/data/movies/Foo") c5Server.rewrite =
      str "/mnt/movies/Foo" ∧
    rewrite_path (str "/data/movies/Foo") c5Server.rewrite ≠
      str "/data/movies/Foo" ∧
    scan_path [c5Server] c5Adapter (str "/data/movies/Foo") =
      [mkScanEntry c5Server (.ok ⟨str "5", str "/data/movies/Foo"⟩)] := by
  decide

/-- Router configuration for the C7 counterexample: the radarr
webhook_events list contains Download but not Import. -/
def c7Cfg : RouterConfig := ⟨[], [str "Download"]⟩

/-- Router configuration for the C7 witness: both Download and Import are
listed (as in the default configuration). -/
def c7CfgBoth : RouterConfig :=
  ⟨[str "Download", str "Import"], [str "Download", str "Import"]⟩

/-- A radarr instance with Import enabled. -/
def c7Inst : ArrInstanceCfg := ⟨str "R1", false, [str "Import"]⟩

/-- A movie payload for the C7 scenarios. -/
def c7Payload : WebhookBody :=
  ⟨some (str "Download"), false, [], [], true, str "/data/movies/Foo", [],
   none, none, true, true⟩

/-- Claim C7, counterexample: the supported-event check against the
configured webhook_events list runs on the RAW event type, before the
Download-to-Import normalization; with radarr events = ["Download"], a
Download event reaches the Import handler while the identical Import event
is discarded as unsupported, so the two are not routed identically for
every configuration. -/
theorem C7_counterexample :
    process_webhook c7Cfg [] [c7Inst] c7Payload (str "Download") =
      .handled (str "handle_radarr_import") [str "R1"] ∧
    process_webhook c7Cfg [] [c7Inst] c7Payload (str "Import") =
      .ignoredRoute (str "Unsupported event type: Import") ∧
    process_webhook c7Cfg [] [c7Inst] c7Payload (str "Download") ≠
      process_webhook c7Cfg [] [c7Inst] c7Payload (str "Import") := by
  decide

/-- Claim C7, amended: for a payload carrying a movie object and no series
object, Download is processed identically to Import PROVIDED the configured
radarr webhook_events list contains both spellings (the supported-event
check precedes normalization; after it, Download is normalized to Import
before the instance filter and the handlers observe the event type). -/
theorem C7_download_import_amended (cfg : RouterConfig)
    (sIns rIns : List ArrInstanceCfg) (p : WebhookBody)
    (hm : p.hasMovie = true) (hs : p.hasSeries = false)
    (h1 : cfg.radarrEvents.contains (str "Download") = true)
    (h2 : cfg.radarrEvents.contains (str "Import") = true) :
    process_webhook cfg sIns rIns p (str "Download") =
      process_webhook cfg sIns rIns p (str "Import") := by
  have e1 : (str "Download" == str "ManualScan") = false := by decide
  have e2 : (str "Import" == str "ManualScan") = false := by decide
  have e3 : (str "Download" == str "Download") = true := by decide
  have e4 : (str "Import" == str "Download") = false := by decide
  have m1 : str "Download" ∈ cfg.radarrEvents := by
    simpa using h1
  have m2 : str "Import" ∈ cfg.radarrEvents := by
    simpa using h2
  simp [process_webhook, e1, e2, e3, e4, hm, hs, m1, m2]

/-- Witness for C7 amended: the default-like configuration listing both
event spellings, hypotheses discharged by computation. -/
theorem C7_download_import_amended_witness :
    process_webhook c7CfgBoth [] [c7Inst] c7Payload (str "Download") =
      process_webhook c7CfgBoth [] [c7Inst] c7Payload (str "Import") :=
  C7_download_import_amended c7CfgBoth [] [c7Inst] c7Payload
    (by decide) (by decide) (by decide) (by decide)
